import Mathlib

/-!
Verification of the listing-and-presentation subsystem of the `rocfl` CLI
(`src/bin/rocfl.rs`), shallowly embedded in Lean.

The binary depends on the `rocfl` library crate (types `VersionId`,
`FileDetails`, `OcflObjectVersion`, trait `OcflRepo` / `FsOcflRepo`), whose
source is not part of the material; those pieces are modelled from the spec
(section 3 and 6 of spec.md), each marked `Modelled from the spec:` in its
doc comment.  Everything else is translated directly from `src/bin/rocfl.rs`.

Timestamps (`chrono::DateTime<Local>`) are modelled as integers with their
chronological order; their display format is external to the subsystem and no
claim depends on it.
-/

/-- Modelled from the spec: `VersionId` (from the `rocfl` library crate, not
under src/) wraps a positive integer with a canonical, stable string form;
ordering is numeric, never lexicographic on the string form. -/
structure VersionId where
  num : Nat
  str : String
deriving DecidableEq

/-- Modelled from the spec: `VersionId.fromInteger(n)` (the `TryFrom<u32>`
conversion of the library crate, not under src/) fails for `n < 1`; for a
`u32` argument that means exactly `n = 0`. -/
def VersionId.tryFrom (n : Nat) : Except String VersionId :=
  if n = 0 then
    Except.error "Version number must be positive"
  else
    Except.ok ⟨n, "v" ++ toString n⟩

/-- Modelled from the spec: the `Ord` instance of `VersionId` (library crate,
not under src/) compares the backing integers numerically. -/
def VersionId.cmp (a b : VersionId) : Ordering :=
  compare a.num b.num

/-- Modelled from the spec: the last-update record carried by `FileDetails`
(library crate, not under src/): the version that last changed the file and
the timestamp of that change, as accessed by `details.last_update.version`
and `details.last_update.created` in the binary. -/
structure LastUpdate where
  version : VersionId
  created : Int
deriving DecidableEq

/-- Modelled from the spec: `FileDetails` (library crate, not under src/):
per-file record with last-update data, physical storage path, and fixity
digest.  The digest algorithm is shared per object version and passed
separately. -/
structure FileDetails where
  last_update : LastUpdate
  storage_path : String
  digest : String
deriving DecidableEq

/-- Modelled from the spec: `OcflObjectVersion` (library crate, not under
src/): the view of one object version, with `state` mapping logical paths to
`FileDetails`, as accessed by the binary
(`object.id/.version/.created/.root/.digest_algorithm/.state`). -/
structure OcflObjectVersion where
  id : String
  version : VersionId
  created : Int
  root : String
  digest_algorithm : String
  state : List (String × FileDetails)
deriving DecidableEq

/-- The sort-field enumeration of `src/bin/rocfl.rs` (`arg_enum! Field` (renamed: `Field` is taken by Mathlib)). -/
inductive SortField where
  | Name
  | Version
  | Updated
  | None
deriving DecidableEq

/-- The `List` command arguments of `src/bin/rocfl.rs` (the struct is named
`List` in the source; renamed here because `List` is taken by Lean). -/
structure ListCmd where
  long : Bool
  physical : Bool
  digest : Bool
  version : Option Nat
  sort : SortField
  reverse : Bool
  object_id : Option String
deriving DecidableEq

/-- The subsystem-local listing entry (`struct Listing` of the source; the
borrowed references are modelled by values). -/
structure Listing where
  version : VersionId
  updated : Int
  name : String
  storage_path : String
  digest_algorithm : Option String
  digest : Option String
deriving DecidableEq

/-- `Listing::new` of the source: builds an entry from a logical path, its
`FileDetails` and the object digest algorithm. -/
def Listing.new (path : String) (details : FileDetails) (digest_algorithm : String) : Listing where
  version := details.last_update.version
  updated := details.last_update.created
  name := path
  storage_path := details.storage_path
  digest_algorithm := some digest_algorithm
  digest := some details.digest

/-- `impl From<&OcflObjectVersion> for Listing` of the source. -/
def Listing.fromObject (object : OcflObjectVersion) : Listing where
  version := object.version
  updated := object.created
  name := object.id
  storage_path := object.root
  digest_algorithm := none
  digest := none

/-- `Listing::updated_str` of the source formats the timestamp through
chrono (external); modelled as the decimal form of the model timestamp — no
claim depends on the concrete format. -/
def Listing.updated_str (l : Listing) : String :=
  toString l.updated

/-- `Field::cmp_listings` of the source. -/
def SortField.cmp_listings : SortField → Listing → Listing → Ordering
  | SortField.Name, a, b => compare a.name b.name
  | SortField.Version, a, b => VersionId.cmp a.version b.version
  | SortField.Updated, a, b => compare a.updated b.updated
  | SortField.None, _, _ => Ordering.eq

/-- The comparator closure passed to `sort_unstable_by` in
`print_object_contents` (source lines 154-160): on `reverse` it calls
`cmp_listings` with the operands swapped. -/
def codeComparator (command : ListCmd) (a b : Listing) : Ordering :=
  if command.reverse then
    command.sort.cmp_listings b a
  else
    command.sort.cmp_listings a b

/-- Rust `{:<w}` formatting: left-justify, pad on the right with spaces to a
minimum width of `w` characters (never truncates). -/
def padRightW (s : String) (w : Nat) : String :=
  s ++ String.mk (List.replicate (w - s.length) ' ')

/-- Rust `{:>w}` formatting: right-justify, pad on the left with spaces to a
minimum width of `w` characters (never truncates). -/
def padLeftW (s : String) (w : Nat) : String :=
  String.mk (List.replicate (w - s.length) ' ') ++ s

/-- The flag-independent part of `impl fmt::Display for FormatListing`
(source lines 236-247): the long or short base columns, then the optional
physical-path column. -/
def fmtBase (l : Listing) (c : ListCmd) : String :=
  let base :=
    if c.long then
      padLeftW l.version.str 5 ++ "\t" ++ padRightW l.updated_str 19 ++ "\t" ++ padRightW l.name 42
    else
      padRightW l.name 42
  if c.physical then base ++ "\t" ++ l.storage_path else base

/-- `impl fmt::Display for FormatListing` of the source.  The source
unconditionally calls `.unwrap()` on `digest_algorithm` (and on `digest`)
on the branch guarded only by `digest.is_some()`; an `unwrap` of `None`
panics, modelled as `Except.error ()`. -/
def FormatListing.fmt (l : Listing) (c : ListCmd) : Except Unit String :=
  if c.digest && l.digest.isSome then
    match l.digest_algorithm with
    | some alg =>
      match l.digest with
      | some d => Except.ok (fmtBase l c ++ "\t" ++ alg ++ ":" ++ d)
      | none => Except.error ()
    | none => Except.error ()
  else
    Except.ok (fmtBase l c)

/-- Observable actions of one invocation: stdout lines (`println!`), error
reports written by `print_err` (stderr), collaborator calls, and a panic of
the formatter (the `unwrap` of a missing digest algorithm). -/
inductive Event where
  | out (line : String)
  | errReport (msg : String)
  | query (id : String) (version : Option VersionId)
  | queryList
  | aborted
deriving DecidableEq

/-- Modelled from the spec: the repository collaborator (`FsOcflRepo` of the
library crate, not under src/), reduced to the responses it gives this
invocation: `get_object` per (id, optional version), and the materialized
`list_objects` enumeration (a lazy sequence of per-element results, or a
request-level failure). -/
structure FsOcflRepo where
  get_object : String → Option VersionId → Except String (Option OcflObjectVersion)
  list_objects : Except String (List (Except String OcflObjectVersion))

/-- `print_err` of the source: writes one error message to stderr unless
`quiet` is set (quiet suppresses the message and changes nothing else). -/
def print_err (e : String) (quiet : Bool) : List Event :=
  if quiet then [] else [Event.errReport e]

/-- `parse_version` of the source. -/
def parse_version (version_num : Option Nat) : Except String (Option VersionId) :=
  match version_num with
  | some n =>
    match VersionId.tryFrom n with
    | Except.ok v => Except.ok (some v)
    | Except.error e => Except.error e
  | none => Except.ok none

/-- `print_object` of the source: renders one object summary line.  A
formatter panic (never reachable here: object-derived listings carry no
digest fields) surfaces as `Event.aborted`. -/
def print_object (object : OcflObjectVersion) (command : ListCmd) : Event :=
  match FormatListing.fmt (Listing.fromObject object) command with
  | Except.ok s => Event.out s
  | Except.error _ => Event.aborted

/-- The sort step of `print_object_contents`.  The source calls
`Vec::sort_unstable_by` (pattern-defeating quicksort): the output is sorted
by `codeComparator` but the relative order of equal-keyed entries is NOT
guaranteed.  It is modelled here by merge sort for executability; no theorem
below relies on the tie order of this model. -/
def sortListings (command : ListCmd) (listings : List Listing) : List Listing :=
  listings.mergeSort (fun a b => codeComparator command a b ≠ Ordering.gt)

/-- `print_object_contents` of the source: normalize each (path, details)
pair of the object state, sort, render each entry. -/
def print_object_contents (object : OcflObjectVersion) (command : ListCmd) : List Event :=
  let listings := object.state.map fun pd => Listing.new pd.1 pd.2 object.digest_algorithm
  let sorted := sortListings command listings
  sorted.map fun l =>
    match FormatListing.fmt l command with
    | Except.ok s => Event.out s
    | Except.error _ => Event.aborted

/-- `list_command` of the source: returns the trace of observable events and
the `Result` value of the function.  `Event.query`/`Event.queryList` mark the
collaborator calls. -/
def list_command (repo : FsOcflRepo) (command : ListCmd) (quiet : Bool) :
    List Event × Except String Unit :=
  match command.object_id with
  | some object_id =>
    match parse_version command.version with
    | Except.error e => ([], Except.error e)
    | Except.ok version =>
      (Event.query object_id version ::
        (match repo.get_object object_id version with
         | Except.ok (some object) => print_object_contents object command
         | Except.ok none =>
           match version with
           | some v =>
             [Event.out ("Object " ++ object_id ++ " version " ++ v.str ++ " was not found")]
           | none => [Event.out ("Object " ++ object_id ++ " was not found")]
         | Except.error e => print_err e quiet),
       Except.ok ())
  | none =>
    match repo.list_objects with
    | Except.error e => ([Event.queryList], Except.error ("Failed to list objects: " ++ e))
    | Except.ok objects =>
      (Event.queryList :: objects.flatMap (fun obj =>
         match obj with
         | Except.ok object => [print_object object command]
         | Except.error e => print_err e quiet),
       Except.ok ())

/-- Event classifiers used to state trace properties. -/
def Event.isOut : Event → Bool
  | Event.out _ => true
  | _ => false

/-- True exactly on error-report events. -/
def Event.isErrReport : Event → Bool
  | Event.errReport _ => true
  | _ => false

/-- `Except.isOk` as a Bool. -/
def exceptIsOk : Except ε α → Bool
  | Except.ok _ => true
  | Except.error _ => false

/-! ### Helper lemmas (shared) -/

/-- An object-derived listing always renders without a panic: its digest
field is absent, so the digest branch of the formatter is skipped. -/
theorem print_object_eq (o : OcflObjectVersion) (c : ListCmd) :
    print_object o c = Event.out (fmtBase (Listing.fromObject o) c) := by
  simp [print_object, FormatListing.fmt, Listing.fromObject]

/-- Filtering the whole-repository event stream for stdout lines yields
exactly the rendered successes, in enumeration order. -/
theorem flatMap_filter_out (command : ListCmd) (quiet : Bool)
    (results : List (Except String OcflObjectVersion)) :
    (results.flatMap (fun obj =>
      match obj with
      | Except.ok object => [print_object object command]
      | Except.error e => print_err e quiet)).filter Event.isOut =
    results.filterMap (fun r =>
      match r with
      | Except.ok o => some (print_object o command)
      | Except.error _ => none) := by
  induction results with
  | nil => rfl
  | cons hd tl ih =>
    cases hd with
    | ok o =>
      simp only [List.flatMap_cons, List.filter_append, List.filterMap_cons]
      rw [ih, print_object_eq]
      rfl
    | error e =>
      simp only [List.flatMap_cons, List.filter_append, List.filterMap_cons]
      rw [ih]
      cases quiet <;> rfl

/-- Filtering the whole-repository event stream (quiet off) for error
reports yields exactly one report per failing element, in order. -/
theorem flatMap_filter_err (command : ListCmd)
    (results : List (Except String OcflObjectVersion)) :
    (results.flatMap (fun obj =>
      match obj with
      | Except.ok object => [print_object object command]
      | Except.error e => print_err e false)).filter Event.isErrReport =
    results.filterMap (fun r =>
      match r with
      | Except.ok _ => none
      | Except.error e => some (Event.errReport e)) := by
  induction results with
  | nil => rfl
  | cons hd tl ih =>
    cases hd with
    | ok o =>
      simp only [List.flatMap_cons, List.filter_append, List.filterMap_cons]
      rw [ih, print_object_eq]
      rfl
    | error e =>
      simp only [List.flatMap_cons, List.filter_append, List.filterMap_cons]
      rw [ih]
      rfl

/-! ### Claim theorems -/

/-- Claim C5: the two normalizer projections satisfy their postconditions —
the entry built from an object summary copies identifier, head version,
created timestamp and root path and leaves both digest fields absent; the
entry built from (path, details, algorithm) copies the digest and the
algorithm (and the remaining fields from the details). -/
theorem normalizer_projections_correct :
    ∀ (o : OcflObjectVersion) (p : String) (d : FileDetails) (alg : String),
      (Listing.fromObject o).name = o.id ∧
      (Listing.fromObject o).version = o.version ∧
      (Listing.fromObject o).updated = o.created ∧
      (Listing.fromObject o).storage_path = o.root ∧
      (Listing.fromObject o).digest = none ∧
      (Listing.fromObject o).digest_algorithm = none ∧
      (Listing.new p d alg).name = p ∧
      (Listing.new p d alg).version = d.last_update.version ∧
      (Listing.new p d alg).updated = d.last_update.created ∧
      (Listing.new p d alg).storage_path = d.storage_path ∧
      (Listing.new p d alg).digest = some d.digest ∧
      (Listing.new p d alg).digest_algorithm = some alg := by
  intro o p d alg
  exact ⟨rfl, rfl, rfl, rfl, rfl, rfl, rfl, rfl, rfl, rfl, rfl, rfl⟩

/-- Claim C10: every listing entry produced by either constructor has its
digest and digest-algorithm fields both present (file-derived) or both
absent (object-derived), and consequently the formatter — which unwraps the
algorithm on the branch guarded only by the digest being present — never
panics on such an entry, under any flag combination. -/
theorem listing_digest_fields_consistent :
    ∀ (p : String) (d : FileDetails) (alg : String) (o : OcflObjectVersion) (c : ListCmd),
      (Listing.new p d alg).digest = some d.digest ∧
      (Listing.new p d alg).digest_algorithm = some alg ∧
      (Listing.fromObject o).digest = none ∧
      (Listing.fromObject o).digest_algorithm = none ∧
      exceptIsOk (FormatListing.fmt (Listing.new p d alg) c) = true ∧
      exceptIsOk (FormatListing.fmt (Listing.fromObject o) c) = true := by
  intro p d alg o c
  refine ⟨rfl, rfl, rfl, rfl, ?_, ?_⟩
  · cases hc : c.digest <;> simp [FormatListing.fmt, Listing.new, exceptIsOk, hc]
  · cases hc : c.digest <;> simp [FormatListing.fmt, Listing.fromObject, exceptIsOk, hc]

/-- Claim C6: an entry without digest data renders byte-identically whether
the digest flag is set or not (the digest column is silently omitted, no
error); an entry carrying digest data rendered with the flag set gets a
final tab-separated column `algorithm:digest`. -/
theorem digest_column_silent_omission :
    ∀ (ver : VersionId) (upd : Int) (nm sp : String) (dalg : Option String)
      (lg ph : Bool) (vn : Option Nat) (srt : SortField) (rev : Bool) (oid : Option String)
      (alg dg : String),
      FormatListing.fmt ⟨ver, upd, nm, sp, dalg, none⟩ ⟨lg, ph, true, vn, srt, rev, oid⟩ =
        FormatListing.fmt ⟨ver, upd, nm, sp, dalg, none⟩ ⟨lg, ph, false, vn, srt, rev, oid⟩ ∧
      FormatListing.fmt ⟨ver, upd, nm, sp, some alg, some dg⟩ ⟨lg, ph, true, vn, srt, rev, oid⟩ =
        Except.ok (fmtBase ⟨ver, upd, nm, sp, some alg, some dg⟩ ⟨lg, ph, true, vn, srt, rev, oid⟩
          ++ "\t" ++ alg ++ ":" ++ dg) := by
  intro ver upd nm sp dalg lg ph vn srt rev oid alg dg
  exact ⟨rfl, rfl⟩

/-- Claim C7 (amended): with the long, physical and digest flags all off the
output is exactly the display name right-padded with spaces to a minimum
width of 42 characters — its characters are the name followed by spaces (so
the renderer introduces no tabs and never truncates, and there is no
trailing separator), and its length is max(name length, 42). -/
theorem render_flags_off_pads_name :
    ∀ (l : Listing) (vn : Option Nat) (srt : SortField) (rev : Bool) (oid : Option String),
      FormatListing.fmt l ⟨false, false, false, vn, srt, rev, oid⟩ =
        Except.ok (padRightW l.name 42) ∧
      (padRightW l.name 42).data = l.name.data ++ List.replicate (42 - l.name.length) ' ' ∧
      (padRightW l.name 42).length = max l.name.length 42 := by
  intro l vn srt rev oid
  refine ⟨by simp [FormatListing.fmt, fmtBase], ?_, ?_⟩
  · simp [padRightW]
  · rw [padRightW, String.length_append]
    show l.name.length + (List.replicate (42 - l.name.length) ' ').length =
      max l.name.length 42
    rw [List.length_replicate]
    omega

/-- Claim C7 counterexample: a display name that itself contains a tab is
passed through verbatim, so the flags-off output does contain a tab
character, contrary to the claim as stated. -/
theorem render_tab_passthrough_counterexample :
    FormatListing.fmt ⟨⟨1, "v1"⟩, 0, "a\tb", "sp", none, none⟩
        ⟨false, false, false, none, SortField.Name, false, none⟩ =
      Except.ok (padRightW "a\tb" 42) ∧
    '\t' ∈ (padRightW "a\tb" 42).data := ⟨rfl, by decide⟩

/-- Claim C8: sorting by the Version field compares the integers backing the
VersionIds numerically — an entry at version 2 orders before an entry at
version 10, whatever the string forms are. -/
theorem version_sort_numeric (a b : Listing)
    (ha : a.version.num = 2) (hb : b.version.num = 10) :
    SortField.Version.cmp_listings a b = Ordering.lt := by
  simp [SortField.cmp_listings, VersionId.cmp, ha, hb]
  decide

/-- Concrete instance of `version_sort_numeric`, with string forms on which
a lexicographic compare would order v10 before v2. -/
theorem version_sort_numeric_witness :
    (⟨⟨2, "v2"⟩, 0, "a", "p", none, none⟩ : Listing).version.num = 2 ∧
    (⟨⟨10, "v10"⟩, 0, "b", "p", none, none⟩ : Listing).version.num = 10 ∧
    SortField.Version.cmp_listings ⟨⟨2, "v2"⟩, 0, "a", "p", none, none⟩
      ⟨⟨10, "v10"⟩, 0, "b", "p", none, none⟩ = Ordering.lt :=
  ⟨rfl, rfl, version_sort_numeric _ _ rfl rfl⟩

/-- Claim C1 (code evidence): the comparator actually passed to the sort in
`print_object_contents` implements `reverse` by swapping the operands of
`cmp_listings` — not by negating its result. -/
theorem reverse_swaps_comparator_operands :
    ∀ (lg ph dg : Bool) (vn : Option Nat) (srt : SortField) (oid : Option String)
      (a b : Listing),
      codeComparator ⟨lg, ph, dg, vn, srt, true, oid⟩ a b = srt.cmp_listings b a ∧
      codeComparator ⟨lg, ph, dg, vn, srt, false, oid⟩ a b = srt.cmp_listings a b := by
  intro lg ph dg vn srt oid a b
  exact ⟨rfl, rfl⟩

/-! ### Concrete inputs used by counterexamples and witnesses -/

/-- A collaborator whose single-object lookup fails with a request-level
error. -/
def failRepo : FsOcflRepo where
  get_object := fun _ _ => Except.error "boom"
  list_objects := Except.ok []

/-- A collaborator whose single-object lookup returns absent. -/
def nfRepo : FsOcflRepo where
  get_object := fun _ _ => Except.ok none
  list_objects := Except.ok []

/-- `ls obj` with all flags off and no version selector. -/
def objCmd : ListCmd := ⟨false, false, false, none, SortField.Name, false, some "obj"⟩

/-- `ls -v 0 obj`: invalid version selector. -/
def objCmdV0 : ListCmd := ⟨false, false, false, some 0, SortField.Name, false, some "obj"⟩

/-- `ls -v 3 obj`: valid version selector. -/
def objCmdV3 : ListCmd := ⟨false, false, false, some 3, SortField.Name, false, some "obj"⟩

/-- `ls` with no object id: whole-repository listing. -/
def noObjCmd : ListCmd := ⟨false, false, false, none, SortField.Name, false, none⟩

/-- Claim C2 counterexample: with a collaborator whose `get_object` fails
with a request-level error, the invocation does NOT abort with a failure
result — `list_command` reports the error and returns `Ok(())`. -/
theorem single_object_error_not_propagated :
    failRepo.get_object "obj" none = Except.error "boom" ∧
    list_command failRepo objCmd false =
      ([Event.query "obj" none, Event.errReport "boom"], Except.ok ()) :=
  ⟨rfl, rfl⟩

/-- Claim C2 (amended): a request-level error of the single-object lookup is
routed to `print_err` (one error report, suppressed when quiet) and the
operation completes with a success result; the error is not propagated. -/
theorem single_object_error_reported_and_ok (repo : FsOcflRepo) (command : ListCmd)
    (quiet : Bool) (oid : String) (v : Option VersionId) (e : String)
    (h1 : command.object_id = some oid)
    (h2 : parse_version command.version = Except.ok v)
    (h3 : repo.get_object oid v = Except.error e) :
    list_command repo command quiet =
      (Event.query oid v :: print_err e quiet, Except.ok ()) := by
  simp [list_command, h1, h2, h3]

/-- Concrete instance of `single_object_error_reported_and_ok`. -/
theorem single_object_error_reported_and_ok_witness :
    objCmd.object_id = some "obj" ∧
    parse_version objCmd.version = Except.ok none ∧
    failRepo.get_object "obj" none = Except.error "boom" ∧
    list_command failRepo objCmd false =
      (Event.query "obj" none :: print_err "boom" false, Except.ok ()) :=
  ⟨rfl, rfl, rfl,
    single_object_error_reported_and_ok failRepo objCmd false "obj" none "boom" rfl rfl rfl⟩

/-- Claim C3: a zero version selector makes `list_command` fail with the
configuration error before any collaborator query (the event trace is
empty); a positive selector converts to a `VersionId` that is passed to the
`get_object` query (the first trace event). -/
theorem invalid_version_fails_before_query (repo : FsOcflRepo) (command : ListCmd)
    (quiet : Bool) (oid : String) (n : Nat)
    (h1 : command.object_id = some oid) :
    (command.version = some 0 →
      list_command repo command quiet =
        ([], Except.error "Version number must be positive")) ∧
    (command.version = some (n + 1) →
      VersionId.tryFrom (n + 1) = Except.ok ⟨n + 1, "v" ++ toString (n + 1)⟩ ∧
      (list_command repo command quiet).1.head? =
        some (Event.query oid (some ⟨n + 1, "v" ++ toString (n + 1)⟩))) := by
  constructor
  · intro h2
    simp [list_command, h1, h2, parse_version, VersionId.tryFrom]
  · intro h2
    refine ⟨by simp [VersionId.tryFrom], ?_⟩
    simp [list_command, h1, h2, parse_version, VersionId.tryFrom]

/-- Concrete instances of `invalid_version_fails_before_query`: selector 0
aborts with an empty trace; selector 3 issues the query with version v3. -/
theorem invalid_version_fails_before_query_witness :
    objCmdV0.object_id = some "obj" ∧ objCmdV0.version = some 0 ∧
    list_command failRepo objCmdV0 false =
      ([], Except.error "Version number must be positive") ∧
    objCmdV3.version = some 3 ∧
    (list_command failRepo objCmdV3 false).1.head? =
      some (Event.query "obj" (some ⟨3, "v3"⟩)) :=
  ⟨rfl, rfl,
    (invalid_version_fails_before_query failRepo objCmdV0 false "obj" 0 rfl).1 rfl,
    rfl,
    ((invalid_version_fails_before_query failRepo objCmdV3 false "obj" 2 rfl).2 rfl).2⟩

/-- Claim C9: an absent single-object result is not an error — the operation
returns success and the trace holds exactly one stdout line (no error
report); the message carries the requested version exactly when a version
selector was given. -/
theorem not_found_informational (repo : FsOcflRepo) (command : ListCmd) (quiet : Bool)
    (oid : String) (v : Option VersionId)
    (h1 : command.object_id = some oid)
    (h2 : parse_version command.version = Except.ok v)
    (h3 : repo.get_object oid v = Except.ok none) :
    list_command repo command quiet =
      ([Event.query oid v,
        Event.out (match v with
          | some vid => "Object " ++ oid ++ " version " ++ vid.str ++ " was not found"
          | none => "Object " ++ oid ++ " was not found")],
       Except.ok ()) := by
  cases v <;> simp [list_command, h1, h2, h3]

/-- Concrete instances of `not_found_informational`: (a) no version selector
— message without version; (b) selector 3 — message naming version v3. -/
theorem not_found_informational_witness :
    objCmd.object_id = some "obj" ∧
    nfRepo.get_object "obj" none = Except.ok none ∧
    list_command nfRepo objCmd false =
      ([Event.query "obj" none, Event.out "Object obj was not found"], Except.ok ()) ∧
    objCmdV3.version = some 3 ∧
    list_command nfRepo objCmdV3 false =
      ([Event.query "obj" (some ⟨3, "v3"⟩),
        Event.out "Object obj version v3 was not found"], Except.ok ()) :=
  ⟨rfl, rfl,
    not_found_informational nfRepo objCmd false "obj" none rfl rfl rfl,
    rfl,
    not_found_informational nfRepo objCmdV3 false "obj" (some ⟨3, "v3"⟩) rfl rfl rfl⟩

/-- Claim C4: in a whole-repository listing the stdout lines are exactly the
rendered successes in enumeration order, the error reports are exactly one
per failing element in order, the result is success — so no per-element
failure stops processing of later elements. -/
theorem whole_repo_per_element_isolation (repo : FsOcflRepo) (command : ListCmd)
    (results : List (Except String OcflObjectVersion))
    (h1 : command.object_id = none)
    (h2 : repo.list_objects = Except.ok results) :
    (list_command repo command false).1.filter Event.isOut =
      results.filterMap (fun r =>
        match r with
        | Except.ok o => some (print_object o command)
        | Except.error _ => none) ∧
    (list_command repo command false).1.filter Event.isErrReport =
      results.filterMap (fun r =>
        match r with
        | Except.ok _ => none
        | Except.error e => some (Event.errReport e)) ∧
    (list_command repo command false).2 = Except.ok () := by
  refine ⟨?_, ?_, ?_⟩
  · simp only [list_command, h1, h2]
    rw [List.filter_cons]
    simp only [Event.isOut]
    exact flatMap_filter_out command false results
  · simp only [list_command, h1, h2]
    rw [List.filter_cons]
    simp only [Event.isErrReport]
    exact flatMap_filter_err command results
  · simp [list_command, h1, h2]

/-- Five-element whole-repository enumeration in which element 3 fails. -/
def enum5 : List (Except String OcflObjectVersion) :=
  [Except.ok ⟨"o1", ⟨1, "v1"⟩, 1, "r1", "sha512", []⟩,
   Except.ok ⟨"o2", ⟨1, "v1"⟩, 2, "r2", "sha512", []⟩,
   Except.error "element 3 broken",
   Except.ok ⟨"o4", ⟨1, "v1"⟩, 4, "r4", "sha512", []⟩,
   Except.ok ⟨"o5", ⟨1, "v1"⟩, 5, "r5", "sha512", []⟩]

/-- A collaborator enumerating `enum5`. -/
def repo5 : FsOcflRepo where
  get_object := fun _ _ => Except.ok none
  list_objects := Except.ok enum5

/-- Concrete instance of `whole_repo_per_element_isolation` on the 5-element
enumeration whose element 3 fails. -/
theorem whole_repo_per_element_isolation_witness :
    noObjCmd.object_id = none ∧
    repo5.list_objects = Except.ok enum5 ∧
    (list_command repo5 noObjCmd false).2 = Except.ok () :=
  ⟨rfl, rfl, (whole_repo_per_element_isolation repo5 noObjCmd enum5 rfl rfl).2.2⟩
